import Mathlib

/-!
Shallow embedding of the EaseMyTrip flight-automation repository
(`src/automation/flight_filter_engine.py`, `tests/test_part1_core_automation.py`,
`tests/test_part2_data_driven.py`), together with theorems settling the
specification claims about it.

Modelling conventions:
* JavaScript/Python strings are Lean `String`s; character-level operations
  (lower-casing, substring tests, regex-like scans) are implemented on
  `List Char` via `String.data`, matching the ASCII inputs the code handles.
* A DOM flight row (`.fltResult` element) is a record of exactly the fields
  the scripts read: its `price`/`stop` attributes, its text content, the
  style fields the filter code writes and the visibility probe reads, and
  the results of the fixed sub-element queries used for airline and
  flight-number extraction.  Inline and computed style are identified
  (the code writes inline styles and reads both).
* Machine integers are `Nat` (all prices involved are non-negative);
  JavaScript `NaN` from an unparsable price text is an explicit `none`.
-/

namespace EMT

/-! ## Character and string helpers (ASCII models of the JS operations used) -/

/-- ASCII uppercase letter test, the `[A-Z]` character class of the regexes. -/
def isUpperAZ (c : Char) : Bool := 'A' ≤ c && c ≤ 'Z'

/-- ASCII lower-casing of one character, modelling JS `toLowerCase` on the
ASCII inputs the engine handles. -/
def chLower (c : Char) : Char :=
  if isUpperAZ c then Char.ofNat (c.toNat + 32) else c

/-- Lower-case a character list. -/
def listLower (l : List Char) : List Char := l.map chLower

/-- Whitespace for `trim` and the `\s` class (space, tab, newline, return). -/
def chIsWS (c : Char) : Bool := c = ' ' || c = '\t' || c = '\n' || c = '\r'

/-- Trim whitespace from both ends of a character list (JS `trim`). -/
def listTrim (l : List Char) : List Char :=
  ((l.dropWhile chIsWS).reverse.dropWhile chIsWS).reverse

/-- `listStarts l p` holds when `p` is an initial segment of `l`
(JS `startsWith`). -/
def listStarts : List Char → List Char → Bool
  | _, [] => true
  | [], _ :: _ => false
  | a :: l, b :: p => a = b && listStarts l p

/-- `listHas l p`: `p` occurs contiguously inside `l` (JS `includes`). -/
def listHas : List Char → List Char → Bool
  | [], p => p.isEmpty
  | a :: l, p => listStarts (a :: l) p || listHas l p

/-- Case-insensitive initial-segment test (for the `/i` regexes). -/
def listStartsCI (l p : List Char) : Bool := listStarts (listLower l) (listLower p)

/-- Parse a non-empty digit list as a number (JS `parseInt` on an all-digit
string); `none` models `NaN` on an empty digit list. -/
def natFromDigits (l : List Char) : Option Nat :=
  if l.isEmpty then none
  else some (l.foldl (fun a c => a * 10 + (c.toNat - '0'.toNat)) 0)

/-- Take the longest initial run of `[0-9,]` characters (the capture group of
the `/₹([0-9,]+)/` regex once `₹` has been seen). -/
def digitsCommaTake : List Char → List Char
  | [] => []
  | c :: cs => if c.isDigit || c = ',' then c :: digitsCommaTake cs else []

/-- Scan for the first `₹` that is followed by at least one `[0-9,]`
character and return that group, modelling `text.match(/₹([0-9,]+)/)`. -/
def rupeeScan : List Char → Option (List Char)
  | [] => none
  | c :: cs =>
    if c = '₹' then
      let grp := digitsCommaTake cs
      if grp.isEmpty then rupeeScan cs else some grp
    else rupeeScan cs

/-! ## Data model -/

/-- Configuration of one test case (`TestConfig` dataclass,
`flight_filter_engine.py` lines 15-25; the fields of the `src/utils/config.py`
variant actually consumed by the engine are the same). -/
structure TestConfig where
  test_id : String
  description : String
  from_city : String
  to_city : String
  departure_date : String
  stops_filter : String
  price_min : Nat
  price_max : Nat
  deriving DecidableEq

/-- The per-run airport-code cache (`self.selected_airport_codes`,
`flight_filter_engine.py` lines 36-39); empty string means "nothing cached". -/
structure AirportCodes where
  from_airport_code : String
  to_airport_code : String
  deriving DecidableEq

/-- One `.fltResult` DOM row, restricted to exactly the data the scripts
read or write.  `priceAttr`/`stopAttr` are the element attributes (`none`
when absent); `airlineSelText` is the trimmed text of the first
airline-selector descendant that has non-empty trimmed text, `none` when the
selectors match nothing; `flightSelTexts` are the texts of the
flight-number-selector descendants in document order; `imgAlt` is the `alt`
of the first airline-logo image (`none` when absent or empty);
`dataAirline`/`dataOperator`/`airlineAttr` are the Method-4 attributes. -/
structure FlightElem where
  priceAttr : Option Nat
  stopAttr : Option String
  textContent : String
  styleDisplay : String
  styleVisibility : String
  hiddenFlag : Bool
  offsetParentNull : Bool
  rectWidth : Nat
  rectHeight : Nat
  airlineSelText : Option String
  flightSelTexts : List String
  imgAlt : Option String
  dataAirline : Option String
  dataOperator : Option String
  airlineAttr : Option String
  deriving DecidableEq

/-- The composite visibility check used by `_count_visible_flights`
(lines 792-817) and `_extract_ui_filtered_flights_only` (lines 1180-1188):
layout box non-zero, inline/computed display and visibility not suppressed,
no `hidden` flag, attached to layout. -/
def isVisible (e : FlightElem) : Bool :=
  !e.offsetParentNull && e.styleDisplay ≠ "none" && e.styleVisibility ≠ "hidden" &&
    !e.hiddenFlag && decide (0 < e.rectHeight) && decide (0 < e.rectWidth)

/-! ## Price Filter Applier (`_test_price_ui_filter`, lines 970-1151) -/

/-- The bounds actually applied to the slider (lines 1009-1012):
`targetMin = Math.max(min_price, sliderMin)`,
`targetMax = Math.min(max_price, sliderMax)`. -/
def priceFilterTargets (price_min price_max sliderMin sliderMax : Nat) : Nat × Nat :=
  (Nat.max price_min sliderMin, Nat.min price_max sliderMax)

/-- Manual hide/show of one row by its `price` attribute
(lines 1048-1070); rows without the attribute are not in the
`.fltResult[price]` selection and stay untouched. -/
def priceFilterHide (tmin tmax : Nat) (e : FlightElem) : FlightElem :=
  match e.priceAttr with
  | none => e
  | some p =>
    if p < tmin ∨ tmax < p then
      { e with styleDisplay := "none", styleVisibility := "hidden" }
    else
      { e with styleDisplay := "", styleVisibility := "visible" }

/-- The whole-page effect of the price filter: clamp the requested bounds to
the slider range and hide/show every priced row accordingly. -/
def applyPriceFilterPage (price_min price_max sliderMin sliderMax : Nat)
    (page : List FlightElem) : List FlightElem :=
  let t := priceFilterTargets price_min price_max sliderMin sliderMax
  page.map (priceFilterHide t.1 t.2)

/-! ## Flight Extractor (`_extract_ui_filtered_flights_only`, lines 1153-1406) -/

/-- Effective price of a row (lines 1196-1206): `parseInt(attr) || 0`, then,
when that is `0`, the `₹`-pattern text fallback; `none` models the `NaN`
that `parseInt` produces when the matched group contains no digit. -/
def effectivePrice (e : FlightElem) : Option Nat :=
  let price0 := e.priceAttr.getD 0
  if price0 = 0 then
    match rupeeScan e.textContent.data with
    | none => some 0
    | some grp => natFromDigits (grp.filter (fun c => c ≠ ','))
  else some price0

/-- Effective stop category of a row (lines 1197-1218): the `stop`
attribute when present and non-empty, otherwise the text-content fallback;
`none` covers both a null attribute and an empty one with no text match. -/
def effectiveStop (e : FlightElem) : Option String :=
  let fromText : Option String :=
    let l := e.textContent.data
    if listHas l "Non-stop".data || listHas l "non-stop".data then some "0"
    else if listHas l "1 stop".data || listHas l "1 Stop".data then some "1"
    else if listHas l "2 stop".data || listHas l "2+ stop".data || listHas l "2 Stop".data then
      some "2"
    else none
  match e.stopAttr with
  | some s => if s = "" then fromText else some s
  | none => fromText

/-- Readable stop label (lines 1223-1226). -/
def stopTypeOf (stop : Option String) : String :=
  if stop = some "0" then "Non-stop"
  else if stop = some "1" then "1 Stop"
  else if stop = some "2" then "2+ Stop"
  else "Unknown"

/-- The stop-match condition of the extractor (lines 1230-1234). -/
abbrev stopMatch (targetStop : String) (stop : Option String) : Prop :=
  (targetStop = "Non-stop" ∧ stop = some "0") ∨
  (targetStop = "1 Stop" ∧ stop = some "1") ∨
  (targetStop = "2+ Stop" ∧ stop = some "2") ∨
  (targetStop = "2 Stop" ∧ stop = some "2") ∨
  (targetStop = "2 Stops" ∧ stop = some "2")

/-- Carrier names of the airline text-pattern fallback (line 1258), in the
alternation order of the regex. -/
def carriers : List String :=
  ["IndiGo", "SpiceJet", "Air India", "Vistara", "GoAir", "Go First",
   "AirAsia India", "Jet Airways", "Alliance Air", "Star Air"]

/-- Leftmost case-insensitive match of one of the carrier names, returning
the matched slice of the original text (JS `match(...)[1]` keeps the
original casing). -/
def carrierScan : List Char → Option String
  | [] => none
  | c :: t =>
    match carriers.find? (fun w => listStartsCI (c :: t) w.data) with
    | some w => some (String.mk ((c :: t).take w.data.length))
    | none => carrierScan t

/-- Fuelled worker for `stripAirlineWords`; one unit of fuel is spent per
step and the fuel is initialised to the text length, which each step
strictly decreases the text by at least one character of. -/
def stripWordsF : Nat → List Char → List Char
  | 0, l => l
  | _ + 1, [] => []
  | fuel + 1, c :: t =>
    if listStartsCI (c :: t) "airline".data then stripWordsF fuel (t.drop 6)
    else if listStartsCI (c :: t) "logo".data then stripWordsF fuel (t.drop 3)
    else if listStartsCI (c :: t) "air".data then stripWordsF fuel (t.drop 2)
    else if listStartsCI (c :: t) "airways".data then stripWordsF fuel (t.drop 6)
    else c :: stripWordsF fuel t

/-- Global, case-insensitive removal of the words of the
`alt.replace(/airline|logo|Air|Airways/gi, '')` call (line 1268), scanning
left to right with the regex's alternation order. -/
def stripAirlineWords (l : List Char) : List Char := stripWordsF l.length l

/-- Falsy-chain of the Method-4 attributes (lines 1274-1276):
`a || b || c` where absent and empty strings are falsy. -/
def attrChain : List (Option String) → Option String
  | [] => none
  | some s :: rest => if s = "" then attrChain rest else some s
  | none :: rest => attrChain rest

/-- Airline extraction (lines 1244-1280): fixed selectors, then the
known-carrier text pattern, then the logo `alt` with airline words removed,
then data attributes. -/
def airlineOf (e : FlightElem) : String :=
  let a1 := e.airlineSelText.getD "Unknown"
  let a2 := if a1 = "Unknown" || a1 = "" then
      match carrierScan e.textContent.data with
      | some m => m
      | none => a1
    else a1
  let a3 := if a2 = "Unknown" || a2 = "" then
      match e.imgAlt with
      | some alt => String.mk (listTrim (stripAirlineWords alt.data))
      | none => a2
    else a2
  if a3 = "Unknown" || a3 = "" then
    match attrChain [e.dataAirline, e.dataOperator, e.airlineAttr] with
    | some v => v
    | none => a3
  else a3

/-- One attempt of `([A-Z]{2,3})[\s-]*(\d{3,4})` at a fixed position with a
fixed letter count `L`: `L` uppercase letters, then separators, then three
or four digits (greedy). -/
def tryCodeAt (l : List Char) (L : Nat) : Option String :=
  let letters := l.take L
  if letters.length = L ∧ letters.all isUpperAZ then
    let rest := (l.drop L).dropWhile (fun c => chIsWS c || c = '-')
    let digits := rest.takeWhile Char.isDigit
    if 3 ≤ digits.length then some (String.mk (letters ++ digits.take 4)) else none
  else none

/-- Leftmost match of the flight-code pattern (line 1290): at each position
try three letters then two, per the regex's greedy `{2,3}` quantifier. -/
def flightCodeScan : List Char → Option String
  | [] => none
  | c :: t =>
    match tryCodeAt (c :: t) 3 with
    | some m => some m
    | none =>
      match tryCodeAt (c :: t) 2 with
      | some m => some m
      | none => flightCodeScan t

/-- Leftmost match of an airline-specific `PRE[\s-]*(\d{3,4})/i` pattern
(lines 1313-1326), returning the digit group. -/
def carrierNumScan (pre : String) : List Char → Option String
  | [] => none
  | c :: t =>
    if listStartsCI (c :: t) pre.data then
      let rest := ((c :: t).drop pre.data.length).dropWhile (fun c => chIsWS c || c = '-')
      let digits := rest.takeWhile Char.isDigit
      if 3 ≤ digits.length then some (String.mk (digits.take 4)) else carrierNumScan pre t
    else carrierNumScan pre t

/-- Flight-number extraction (lines 1286-1327): pattern over the whole text,
then over the flight-number selector elements, then the airline-specific
leading-code patterns. -/
def flightNumberOf (airline : String) (e : FlightElem) : String :=
  let f1 := match flightCodeScan e.textContent.data with
    | some m => m
    | none => "N/A"
  let f2 := if f1 = "N/A" then
      match e.flightSelTexts.findSome? (fun t => flightCodeScan (listTrim t.data)) with
      | some m => m
      | none => f1
    else f1
  if f2 = "N/A" then
    let al := listLower airline.data
    if listHas al "indigo".data then
      match carrierNumScan "6E" e.textContent.data with
      | some d => "6E" ++ d
      | none => f2
    else if listHas al "spicejet".data then
      match carrierNumScan "SG" e.textContent.data with
      | some d => "SG" ++ d
      | none => f2
    else if listHas al "air india".data then
      match carrierNumScan "AI" e.textContent.data with
      | some d => "AI" ++ d
      | none => f2
    else if listHas al "vistara".data then
      match carrierNumScan "UK" e.textContent.data with
      | some d => "UK" ++ d
      | none => f2
    else f2
  else f2

/-- One extracted flight row (the dict built at lines 1329-1342). -/
structure ExtractedFlight where
  index : Nat
  airline : String
  flight_number : String
  price : Nat
  stops : String
  from_code : String
  to_code : String
  route : String
  priceOk : Bool
  stopOk : Bool
  bothMatch : Bool
  full_text : String
  deriving DecidableEq

/-- `'cached' || 'N/A'` of lines 1283-1284: an empty cached code is falsy
and falls back to `"N/A"`. -/
def codeOr (c : String) : String := if c = "" then "N/A" else c

/-- Build the extracted-flight record of lines 1329-1342 for a row that
passed both checks. -/
def mkExtracted (codes : AirportCodes) (i : Nat) (e : FlightElem) (price : Nat) :
    ExtractedFlight :=
  let airline := airlineOf e
  { index := i
    airline := airline
    flight_number := flightNumberOf airline e
    price := price
    stops := stopTypeOf (effectiveStop e)
    from_code := codeOr codes.from_airport_code
    to_code := codeOr codes.to_airport_code
    route := codeOr codes.from_airport_code ++ " → " ++ codeOr codes.to_airport_code
    priceOk := true
    stopOk := true
    bothMatch := true
    full_text := e.textContent }

/-- Core of the per-row extraction body (lines 1177-1344), parameterised by
the price window and stop label that the JS interpolates into the script:
skip invisible rows, compute effective price and stop, include the row only
when both conditions hold.  A `none` effective price is JS `NaN`, for which
both bound comparisons are false. -/
def extractRow (codes : AirportCodes) (pmin pmax : Nat) (targetStop : String)
    (ie : Nat × FlightElem) : Option ExtractedFlight :=
  if isVisible ie.2 then
    match effectivePrice ie.2 with
    | none => none
    | some price =>
      if (pmin ≤ price ∧ price ≤ pmax) ∧ stopMatch targetStop (effectiveStop ie.2) then
        some (mkExtracted codes ie.1 ie.2 price)
      else none
  else none

/-- Window-parameterised extraction over the whole page. -/
def extractCore (codes : AirportCodes) (pmin pmax : Nat) (targetStop : String)
    (page : List FlightElem) : List ExtractedFlight :=
  page.enum.filterMap (extractRow codes pmin pmax targetStop)

/-- `_extract_ui_filtered_flights_only` (lines 1153-1406): the JS template
interpolates `config.price_min`, `config.price_max` and
`config.stops_filter` — the original request values — as the filter
criteria (lines 1166-1168). -/
def extractUIFilteredFlightsOnly (codes : AirportCodes) (cfg : TestConfig)
    (page : List FlightElem) : List ExtractedFlight :=
  extractCore codes cfg.price_min cfg.price_max cfg.stops_filter page

/-- Modelled from the spec: the claim's reading of the price-filter
contract, under which the extraction window is the achieved
(slider-clamped) bounds rather than the requested ones.  This definition
follows the spec's words; no code in the repository propagates the achieved
bounds, so it exists only to be compared against
`extractUIFilteredFlightsOnly`. -/
def extractWithAchievedBounds (codes : AirportCodes) (cfg : TestConfig)
    (sliderMin sliderMax : Nat) (page : List FlightElem) : List ExtractedFlight :=
  let t := priceFilterTargets cfg.price_min cfg.price_max sliderMin sliderMax
  extractCore codes t.1 t.2 cfg.stops_filter page

/-! ## City Selector matching (`_select_city`, lines 262-771) -/

/-- Leading city name of a suggestion: `itemText.split('(')[0].trim()`
(line 409). -/
def leadCityName (t : String) : String :=
  String.mk (listTrim (t.data.takeWhile (fun c => c ≠ '(')))

/-- Tiered score of one suggestion's leading city name against one target
variation (lines 411-433), computed on the lower-cased strings. -/
def matchScore (cityInSuggestion variation : String) : Nat :=
  let s := listLower cityInSuggestion.data
  let v := listLower variation.data
  if s = v then 1000
  else if listStarts s v && decide (2 ≤ v.length) then 900
  else if listStarts v s && decide (2 ≤ s.length) then 850
  else if listHas s v && decide (2 ≤ v.length) then 700
  else if listHas v s && decide (2 ≤ s.length) then 650
  else 0

/-- Running best of the suggestion scan (the `bestScore`/`bestMatch`
variables of lines 403-404). -/
structure BestMatch where
  score : Nat
  text : Option String
  deriving DecidableEq

/-- One comparison of the scan (lines 435-455): the running best is
replaced exactly when the pair's score is strictly greater. -/
def scanStep (item : String) (acc : BestMatch) (v : String) : BestMatch :=
  if acc.score < matchScore (leadCityName item) v then
    { score := matchScore (leadCityName item) v, text := some item }
  else acc

/-- Scan all suggestion/variation pairs in the loop order of lines 407-457
(items outer, variations inner), updating the best on strictly greater
score. -/
def scanBest (suggestions variations : List String) : BestMatch :=
  suggestions.foldl (fun acc item => variations.foldl (scanStep item) acc)
    { score := 0, text := none }

/-- The click decision of lines 474-497: the best suggestion is clicked only
when its score reaches the confidence threshold 300, otherwise the selection
fails.  (A null `bestMatch` implies score 0 < 300, so the guard reduces to
the threshold test.) -/
def citySelectDecision (suggestions variations : List String) : Option String :=
  if 300 ≤ (scanBest suggestions variations).score then
    (scanBest suggestions variations).text
  else none

/-- One attempt of the `\(([A-Z]{3})\)` pattern at a fixed position: an
opening parenthesis, three uppercase letters, a closing parenthesis. -/
def codeAt (l : List Char) : Option (List Char) :=
  match l with
  | '(' :: a :: b :: c :: ')' :: _ =>
    if isUpperAZ a && isUpperAZ b && isUpperAZ c then some [a, b, c] else none
  | _ => none

/-- `_extract_airport_code`'s regex search (lines 773-785): leftmost
`(XXX)` group of three uppercase letters. -/
def findCode : List Char → Option (List Char)
  | [] => none
  | x :: rest =>
    match codeAt (x :: rest) with
    | some cs => some cs
    | none => findCode rest

/-- String-level wrapper of `findCode`, the function's return value. -/
def extractAirportCode (selected_text : String) : String :=
  match findCode selected_text.data with
  | some cs => String.mk cs
  | none => ""

/-- The cache update after a successful selection (lines 507-513): the code
is stored only when `_extract_airport_code` returned a non-empty string. -/
def storeAirportCode (codes : AirportCodes) (fieldIsFrom : Bool) (selected_text : String) :
    AirportCodes :=
  let c := extractAirportCode selected_text
  if c = "" then codes
  else if fieldIsFrom then { codes with from_airport_code := c }
  else { codes with to_airport_code := c }

/-! ## Stops Filter Applier (`_test_stops_ui_filter_corrected`, lines 852-968) -/

/-- The three stop checkboxes of the results page. -/
structure CheckboxState where
  chkNonStop : Bool
  chkOneStop : Bool
  chkTwoStop : Bool
  deriving DecidableEq

/-- Read one checkbox (`cb ? cb.checked : false` with all three present). -/
def getChecked (st : CheckboxState) (id : String) : Bool :=
  if id = "chkNonStop" then st.chkNonStop
  else if id = "chkOneStop" then st.chkOneStop
  else if id = "chkTwoStop" then st.chkTwoStop
  else false

/-- Clicking a checkbox toggles it. -/
def clickCheckbox (st : CheckboxState) (id : String) : CheckboxState :=
  if id = "chkNonStop" then { st with chkNonStop := !st.chkNonStop }
  else if id = "chkOneStop" then { st with chkOneStop := !st.chkOneStop }
  else if id = "chkTwoStop" then { st with chkTwoStop := !st.chkTwoStop }
  else st

/-- The `filter_mapping` dict lookup of lines 857-869. -/
def filterMappingGet (s : String) : Option String :=
  if s = "Non-stop" then some "chkNonStop"
  else if s = "Nonstop" then some "chkNonStop"
  else if s = "1 Stop" then some "chkOneStop"
  else if s = "1-stop" then some "chkOneStop"
  else if s = "One Stop" then some "chkOneStop"
  else if s = "2+ Stop" then some "chkTwoStop"
  else if s = "2 Stop" then some "chkTwoStop"
  else if s = "2 Stops" then some "chkTwoStop"
  else if s = "Two Stop" then some "chkTwoStop"
  else none

/-- The recognised stop-filter labels, i.e. the keys of `filter_mapping`. -/
def recognizedStopLabels : List String :=
  ["Non-stop", "Nonstop", "1 Stop", "1-stop", "One Stop",
   "2+ Stop", "2 Stop", "2 Stops", "Two Stop"]

/-- Ids checked in a state, in the fixed iteration order of the script. -/
def checkedIds (st : CheckboxState) : List String :=
  (["chkNonStop", "chkOneStop", "chkTwoStop"]).filter (getChecked st)

/-- Step 2 of the applier: click every non-target checkbox that is
currently checked (lines 894-914). -/
def uncheckStep (target : String) (st : CheckboxState) (id : String) : CheckboxState :=
  if id ≠ target ∧ getChecked st id then clickCheckbox st id else st

/-- `_test_stops_ui_filter_corrected` (lines 852-968): unknown labels fail
immediately with the state untouched; otherwise uncheck the others, ensure
the target is checked, and succeed exactly when the target alone ends up
checked. -/
def testStopsUIFilterCorrected (st : CheckboxState) (stops_filter : String) :
    Bool × CheckboxState :=
  match filterMappingGet stops_filter with
  | none => (false, st)
  | some target =>
    let st1 := (["chkNonStop", "chkOneStop", "chkTwoStop"]).foldl (uncheckStep target) st
    let st2 := if !getChecked st1 target then clickCheckbox st1 target else st1
    let final := checkedIds st2
    (decide (final.length = 1) && final.contains target, st2)

/-! ## Engine entry point (`test_ui_filter_functionality`, lines 41-96)

The method returns Python dicts; to talk about their key sets we model a
result as an association list from string keys to a small value universe. -/

/-- Values occurring in the engine's result dicts. -/
inductive RVal where
  | s (v : String)
  | n (v : Nat)
  | b (v : Bool)
  | fl (v : List ExtractedFlight)
  | cf (v : TestConfig)
  | dict (v : List (String × RVal))

/-- A result dict: keys in insertion order. -/
abbrev ResultDict := List (String × RVal)

/-- Python `dict.get(key)` (first binding wins; the engine's literals have
distinct keys). -/
def rget : ResultDict → String → Option RVal
  | [], _ => none
  | (k, v) :: rest, key => if k = key then some v else rget rest key

/-- The behaviour of the driven page and browser during one run, i.e. the
outcomes of the stages the engine's `try` block performs.  `searchOk` is the
Boolean result of `_perform_flight_search` (which catches its own
exceptions, lines 98-260); the two visible-flight counts are `page.evaluate`
calls that may raise (`Except.error` carries the exception text);
`_apply_pure_ui_filters` catches everything internally (lines 849-850) and
its effect is folded into `pageAfterFilters`; `extractRaises` is an
exception inside `_extract_ui_filtered_flights_only`, which its own handler
converts to an empty list (lines 1404-1406). -/
structure PageBehavior where
  searchOk : Bool
  countBefore : Except String Nat
  countAfter : Except String Nat
  pageAfterFilters : List FlightElem
  extractRaises : Option String

/-- The structured FAIL result of line 65. -/
def failDict : ResultDict :=
  [("status", RVal.s "FAIL"), ("reason", RVal.s "Search failed"), ("flights", RVal.fl [])]

/-- The structured ERROR result of line 93. -/
def errorDict (e : String) : ResultDict :=
  [("status", RVal.s "ERROR"), ("error", RVal.s e), ("flights", RVal.fl [])]

/-- The SUCCESS result of lines 83-89. -/
def successDict (before_count after_count : Nat) (flights : List ExtractedFlight)
    (config : TestConfig) : ResultDict :=
  [("status", RVal.s "SUCCESS"), ("before_count", RVal.n before_count),
   ("after_count", RVal.n after_count), ("ui_filtered_flights", RVal.fl flights),
   ("test_config", RVal.cf config)]

/-- `test_ui_filter_functionality` (lines 41-96): search, count, filter,
count, extract; a failed search returns FAIL, an exception anywhere in the
`try` block is caught and returned as ERROR, otherwise SUCCESS. -/
def testUIFilterFunctionality (codes : AirportCodes) (pb : PageBehavior)
    (config : TestConfig) : ResultDict :=
  if !pb.searchOk then failDict
  else
    match pb.countBefore with
    | Except.error e => errorDict e
    | Except.ok before_count =>
      match pb.countAfter with
      | Except.error e => errorDict e
      | Except.ok after_count =>
        successDict before_count after_count
          (match pb.extractRaises with
           | some _ => []
           | none => extractUIFilteredFlightsOnly codes config pb.pageAfterFilters)
          config

/-! ## Part 2 batch runner (`test_part2_data_driven_all_cases`,
`tests/test_part2_data_driven.py` lines 106-302) -/

/-- `result.get('ui_filtered_flights', [])` (line 161). -/
def flightsOf (r : ResultDict) : List ExtractedFlight :=
  match rget r "ui_filtered_flights" with
  | some (RVal.fl v) => v
  | _ => []

/-- The chained read `validation_result` then `validation_passed` of
lines 162-163: it defaults to an empty dict and then to `True`. -/
def validationPassedOf (r : ResultDict) : Bool :=
  match rget r "validation_result" with
  | some (RVal.dict d) =>
    match rget d "validation_passed" with
    | some (RVal.b v) => v
    | _ => true
  | _ => true

/-- Per-case classification of the batch runner (lines 132-192), returning
the `filter_status` it stores and whether the case is counted among
`passed_tests`.  The status chain compares `result.get('status','UNKNOWN')`
against the four known strings; any other value falls through to
UNKNOWN_STATUS. -/
def runnerClassify (r : ResultDict) : String × Bool :=
  let status := match rget r "status" with
    | some (RVal.s v) => v
    | _ => "UNKNOWN"
  if status = "FAIL" then ("CORE_OPERATION_FAILED", false)
  else if status = "ERROR" then ("TECHNICAL_ERROR", false)
  else if status = "TIMEOUT" then ("TIMEOUT", false)
  else if status = "SUCCESS" then
    let flights_found := (flightsOf r).length
    if 0 < flights_found then
      if validationPassedOf r then ("PASSED", true) else ("VALIDATION_FAILED", false)
    else ("NO_FLIGHTS_FOUND", true)
  else ("UNKNOWN_STATUS", false)

/-- The critical-failure categories of the `pytest.fail` check
(lines 269-277). -/
def criticalStatuses : List String :=
  ["CORE_OPERATION_FAILED", "TECHNICAL_ERROR", "TIMEOUT",
   "TEST_EXECUTION_FAILED", "VALIDATION_FAILED", "UNKNOWN_STATUS"]

/-- `critical_failures`: how many results carry a critical status
(lines 269-277); `pytest.fail` is raised iff this is positive (line 279). -/
def countCritical (statuses : List String) : Nat :=
  (statuses.filter (fun st => st ∈ criticalStatuses)).length

/-- Classified statuses of a batch of engine runs (each case runs the
engine on its own config and page behaviour). -/
def batchStatuses (codes : AirportCodes) (cases : List (PageBehavior × TestConfig)) :
    List String :=
  cases.map (fun pc => (runnerClassify (testUIFilterFunctionality codes pc.1 pc.2)).1)

/-- How many cases of a batch are counted into `passed_tests`. -/
def batchPassed (codes : AirportCodes) (cases : List (PageBehavior × TestConfig)) : Nat :=
  (cases.filter (fun pc => (runnerClassify (testUIFilterFunctionality codes pc.1 pc.2)).2)).length

/-! ## Part 1 report generator (`_save_part1_excel`,
`tests/test_part1_core_automation.py` lines 237-381)

The Airline Summary sheet is built from the `consolidated_data` dicts; a
row of that sheet carries the four written cells plus the numeric price the
sort keys use. -/

/-- One `consolidated_data` record (the fields read at lines 309-344). -/
structure ConsolidatedRow where
  airline_name : String
  price : String
  price_numeric : Nat
  from_airport_code : String
  to_airport_code : String
  deriving DecidableEq

/-- Ascending order on the numeric price, the `key=lambda x:
x.get('price_numeric', 0)` of line 326. -/
def rowLe (a b : ConsolidatedRow) : Prop := a.price_numeric ≤ b.price_numeric

instance : DecidableRel rowLe := fun a b => Nat.decLe a.price_numeric b.price_numeric

instance : IsTotal ConsolidatedRow rowLe := ⟨fun a b => Nat.le_total _ _⟩

instance : IsTrans ConsolidatedRow rowLe := ⟨fun _ _ _ => Nat.le_trans⟩

/-- Keys of `airline_groups` in Python-dict insertion order, i.e. airline
names in order of first occurrence (lines 308-313). -/
def groupKeys : List ConsolidatedRow → List String
  | [] => []
  | f :: fs => f.airline_name :: (groupKeys fs).filter (fun a => a ≠ f.airline_name)

/-- The rows of one airline's group, in input order (the append loop of
lines 309-313). -/
def airlineGroup (fs : List ConsolidatedRow) (a : String) : List ConsolidatedRow :=
  fs.filter (fun f => f.airline_name = a)

/-- The per-group stable sort by ascending price of lines 325-326 (Python's
`list.sort` is stable; insertion sort models it). -/
def sortGroup (g : List ConsolidatedRow) : List ConsolidatedRow :=
  List.insertionSort rowLe g

/-- `min(f.price for f in group)` (line 330), as Python's left-to-right
minimum; the 0 for an empty group is a junk value never used, since groups
are built from occurrences. -/
def groupMin : List ConsolidatedRow → Nat
  | [] => 0
  | f :: fs => fs.foldl (fun m x => Nat.min m x.price_numeric) f.price_numeric

/-- Order on airlines by their group's minimum price (line 329-330; the
groups are already price-sorted when the key is computed). -/
def airlineLe (fs : List ConsolidatedRow) (a b : String) : Prop :=
  groupMin (sortGroup (airlineGroup fs a)) ≤ groupMin (sortGroup (airlineGroup fs b))

instance (fs : List ConsolidatedRow) : DecidableRel (airlineLe fs) :=
  fun a b => Nat.decLe _ _

instance (fs : List ConsolidatedRow) : IsTotal String (airlineLe fs) :=
  ⟨fun _ _ => Nat.le_total _ _⟩

instance (fs : List ConsolidatedRow) : IsTrans String (airlineLe fs) :=
  ⟨fun _ _ _ => Nat.le_trans⟩

/-- `sorted_airlines` (lines 329-330): airlines stably sorted by their
group's minimum price. -/
def sortedAirlines (fs : List ConsolidatedRow) : List String :=
  List.insertionSort (airlineLe fs) (groupKeys fs)

/-- The airline blocks of the summary sheet, in output order: one
price-sorted group per airline of `sorted_airlines`. -/
def summaryBlocks (fs : List ConsolidatedRow) : List (List ConsolidatedRow) :=
  (sortedAirlines fs).map (fun a => sortGroup (airlineGroup fs a))

/-- Join blocks with exactly one blank row between consecutive blocks and
none before the first, modelling the `current_row` loop of lines 333-345
(`none` is a row the loop skipped, i.e. a blank spreadsheet row). -/
def gapJoin : List (List ConsolidatedRow) → List (Option ConsolidatedRow)
  | [] => []
  | [b] => b.map some
  | b :: bs => b.map some ++ none :: gapJoin bs

/-- The data region of the Airline Summary sheet (rows 2..), top to
bottom. -/
def summarySheet (fs : List ConsolidatedRow) : List (Option ConsolidatedRow) :=
  gapJoin (summaryBlocks fs)

/-! ## Concrete sample data used by witnesses and counterexamples -/

/-- A sample configuration requesting 1-stop flights between 6000 and
20000 rupees. -/
def cfg1Stop : TestConfig :=
  ⟨"T1", "demo", "Ahmedabad", "Goa", "2025-12-01", "1 Stop", 6000, 20000⟩

/-- The same request with the canonical label `Non-stop`. -/
def cfgNonstop : TestConfig := { cfg1Stop with stops_filter := "Non-stop" }

/-- The same request with the synonym label `Nonstop`. -/
def cfgNonstopSyn : TestConfig := { cfg1Stop with stops_filter := "Nonstop" }

/-- A cache holding codes extracted from city-selection texts. -/
def codesAG : AirportCodes := ⟨"AMD", "GOI"⟩

/-- The initial, empty cache. -/
def emptyCodes : AirportCodes := ⟨"", ""⟩

/-- A visible one-stop row priced 7000 via the `price` attribute. -/
def sampleStop1Elem : FlightElem :=
  { priceAttr := some 7000, stopAttr := some "1", textContent := "IndiGo 1 Stop"
    styleDisplay := "", styleVisibility := "visible", hiddenFlag := false
    offsetParentNull := false, rectWidth := 100, rectHeight := 50
    airlineSelText := some "IndiGo", flightSelTexts := [], imgAlt := none
    dataAirline := none, dataOperator := none, airlineAttr := none }

/-- A visible non-stop row priced 7000 via the `price` attribute. -/
def sampleNonstopElem : FlightElem := { sampleStop1Elem with stopAttr := some "0" }

/-- A visible one-stop row with no `price` attribute whose text parses to
6100; the price filter's `.fltResult[price]` selection never touches it. -/
def textPricedElem : FlightElem :=
  { sampleStop1Elem with priceAttr := none, textContent := "₹6,100 1 Stop" }

/-- A visible one-stop row priced 6100 via the `price` attribute. -/
def pricedElem6100 : FlightElem := { sampleStop1Elem with priceAttr := some 6100 }

/-- Page behaviour: successful search, counts 3 and 1, one one-stop row. -/
def pbSuccess : PageBehavior :=
  ⟨true, Except.ok 3, Except.ok 1, [sampleStop1Elem], none⟩

/-- Page behaviour: successful search with an empty filtered page. -/
def pbEmpty : PageBehavior := ⟨true, Except.ok 0, Except.ok 0, [], none⟩

/-- Page behaviour whose first count raises. -/
def pbRaise : PageBehavior := ⟨true, Except.error "boom", Except.ok 0, [], none⟩

/-- Sample consolidated rows for the report generator, two airlines with
interleaved prices. -/
def rows0 : List ConsolidatedRow :=
  [⟨"IndiGo", "₹7,000", 7000, "AMD", "GOI"⟩,
   ⟨"Vistara", "₹6,500", 6500, "AMD", "GOI"⟩,
   ⟨"IndiGo", "₹6,800", 6800, "AMD", "GOI"⟩]

/-! ## Theorems -/

/-- Claim C5: for every `stops_filter` string not among the recognized stop
labels (for example `"3 Stop"`), `_test_stops_ui_filter_corrected` fails
immediately and returns `False` before reading or toggling any checkbox, so
the page's checkbox state is left unchanged. -/
theorem stops_filter_unknown_label_fails (st : CheckboxState) (s : String)
    (h : s ∉ recognizedStopLabels) :
    filterMappingGet s = none ∧ testStopsUIFilterCorrected st s = (false, st) := by
  simp only [recognizedStopLabels, List.mem_cons, List.not_mem_nil, or_false, not_or] at h
  obtain ⟨h1, h2, h3, h4, h5, h6, h7, h8, h9⟩ := h
  have hm : filterMappingGet s = none := by
    simp [filterMappingGet, h1, h2, h3, h4, h5, h6, h7, h8, h9]
  exact ⟨hm, by simp [testStopsUIFilterCorrected, hm]⟩

/-- Witness for C5 at the spec's example label `"3 Stop"` and a state with
the non-stop box checked. -/
theorem stops_filter_unknown_label_fails_witness :
    filterMappingGet "3 Stop" = none ∧
      testStopsUIFilterCorrected ⟨true, false, false⟩ "3 Stop" =
        (false, ⟨true, false, false⟩) :=
  stops_filter_unknown_label_fails ⟨true, false, false⟩ "3 Stop" (by decide)

/-- Claim C6: `test_ui_filter_functionality` always returns a structured
dict whose status is SUCCESS, FAIL or ERROR, for every behaviour of the
driven page; an exception raised by a stage inside its `try` block is
converted into the structured `{status: ERROR, error, flights}` result
instead of propagating to the caller. -/
theorem engine_never_raises (codes : AirportCodes) (pb : PageBehavior)
    (config : TestConfig) :
    (rget (testUIFilterFunctionality codes pb config) "status" = some (RVal.s "SUCCESS") ∨
     rget (testUIFilterFunctionality codes pb config) "status" = some (RVal.s "FAIL") ∨
     rget (testUIFilterFunctionality codes pb config) "status" = some (RVal.s "ERROR")) ∧
    (∀ e, pb.searchOk = true → pb.countBefore = Except.error e →
      testUIFilterFunctionality codes pb config = errorDict e) ∧
    (∀ e n, pb.searchOk = true → pb.countBefore = Except.ok n →
      pb.countAfter = Except.error e →
      testUIFilterFunctionality codes pb config = errorDict e) := by
  unfold testUIFilterFunctionality
  cases hs : pb.searchOk <;> cases hb : pb.countBefore <;> cases ha : pb.countAfter <;>
    simp [failDict, errorDict, successDict, rget]

/-- Witness for C6: a run whose first count evaluation raises yields the
structured ERROR dict. -/
theorem engine_never_raises_witness :
    testUIFilterFunctionality emptyCodes pbRaise cfg1Stop = errorDict "boom" :=
  (engine_never_raises emptyCodes pbRaise cfg1Stop).2.1 "boom" rfl rfl

/-- Helper: the flights list read back from a SUCCESS dict. -/
theorem flightsOf_successDict (bc ac : Nat) (fs : List ExtractedFlight)
    (config : TestConfig) : flightsOf (successDict bc ac fs config) = fs := by
  simp [flightsOf, successDict, rget]

/-- Helper: a SUCCESS dict has no `validation_result` key, so the runner's
default applies. -/
theorem validationPassedOf_successDict (bc ac : Nat) (fs : List ExtractedFlight)
    (config : TestConfig) : validationPassedOf (successDict bc ac fs config) = true := by
  simp [validationPassedOf, successDict, rget]

/-- Helper: how the batch runner classifies a SUCCESS dict. -/
theorem runnerClassify_successDict (bc ac : Nat) (fs : List ExtractedFlight)
    (config : TestConfig) :
    runnerClassify (successDict bc ac fs config) =
      if 0 < fs.length then ("PASSED", true) else ("NO_FLIGHTS_FOUND", true) := by
  have hA : ("SUCCESS" : String) ≠ "FAIL" := by decide
  have hB : ("SUCCESS" : String) ≠ "ERROR" := by decide
  have hC : ("SUCCESS" : String) ≠ "TIMEOUT" := by decide
  simp [runnerClassify, successDict, rget, flightsOf, validationPassedOf, hA, hB, hC]

/-- Helper: every engine result is one of the three structured dicts. -/
theorem engineRun_cases (codes : AirportCodes) (pb : PageBehavior) (config : TestConfig) :
    testUIFilterFunctionality codes pb config = failDict ∨
    (∃ e, testUIFilterFunctionality codes pb config = errorDict e) ∨
    (∃ bc ac fs, testUIFilterFunctionality codes pb config = successDict bc ac fs config) := by
  unfold testUIFilterFunctionality
  cases pb.searchOk
  · left
    simp
  · cases pb.countBefore with
    | error e =>
      right; left
      exact ⟨e, by simp⟩
    | ok bc =>
      cases pb.countAfter with
      | error e =>
        right; left
        exact ⟨e, by simp⟩
      | ok ac =>
        right; right
        exact ⟨bc, ac, _, rfl⟩

/-- Claim C4: a SUCCESS result of `test_ui_filter_functionality` carries
exactly the keys `status`, `before_count`, `after_count`,
`ui_filtered_flights`, `test_config` — never a `validation_result` key — so
the batch runner's `validation_passed` flag takes its default `True`, no
engine result is ever classified VALIDATION_FAILED, and every SUCCESS
result with at least one extracted flight is classified PASSED. -/
theorem engine_success_keys_default_validation (codes : AirportCodes)
    (pb : PageBehavior) (config : TestConfig)
    (h : rget (testUIFilterFunctionality codes pb config) "status" =
      some (RVal.s "SUCCESS")) :
    (testUIFilterFunctionality codes pb config).map Prod.fst =
      ["status", "before_count", "after_count", "ui_filtered_flights", "test_config"] ∧
    rget (testUIFilterFunctionality codes pb config) "validation_result" = none ∧
    validationPassedOf (testUIFilterFunctionality codes pb config) = true ∧
    (runnerClassify (testUIFilterFunctionality codes pb config)).1 ≠ "VALIDATION_FAILED" ∧
    (0 < (flightsOf (testUIFilterFunctionality codes pb config)).length →
      runnerClassify (testUIFilterFunctionality codes pb config) = ("PASSED", true)) := by
  rcases engineRun_cases codes pb config with hc | ⟨e, hc⟩ | ⟨bc, ac, fs, hc⟩
  · rw [hc] at h
    simp [failDict, rget, show ("FAIL" : String) ≠ "SUCCESS" from by decide] at h
  · rw [hc] at h
    simp [errorDict, rget, show ("ERROR" : String) ≠ "SUCCESS" from by decide] at h
  · rw [hc]
    refine ⟨by simp [successDict], by simp [successDict, rget],
      validationPassedOf_successDict _ _ _ _, ?_, ?_⟩
    · rw [runnerClassify_successDict]
      split <;> simp
    · rw [flightsOf_successDict, runnerClassify_successDict]
      intro hlen
      rw [if_pos hlen]

/-- Witness for C4: a successful run with one extracted flight is
classified PASSED and counted as passed. -/
theorem engine_success_keys_default_validation_witness :
    runnerClassify (testUIFilterFunctionality emptyCodes pbSuccess cfg1Stop) =
      ("PASSED", true) :=
  (engine_success_keys_default_validation emptyCodes pbSuccess cfg1Stop rfl).2.2.2.2
    (by decide)

/-- Claim C7: a run whose search succeeds but extracts zero flights is
classified NO_FLIGHTS_FOUND and counted among passed tests, the
critical-failure categories do not include NO_FLIGHTS_FOUND, and a batch
containing only such outcomes has zero critical failures — so `pytest.fail`
is never reached — with every case counted as passed. -/
theorem no_flights_found_is_passing (codes : AirportCodes)
    (cases : List (PageBehavior × TestConfig))
    (h : ∀ pc ∈ cases,
      rget (testUIFilterFunctionality codes pc.1 pc.2) "status" = some (RVal.s "SUCCESS") ∧
      flightsOf (testUIFilterFunctionality codes pc.1 pc.2) = []) :
    (∀ pc ∈ cases,
      runnerClassify (testUIFilterFunctionality codes pc.1 pc.2) = ("NO_FLIGHTS_FOUND", true)) ∧
    "NO_FLIGHTS_FOUND" ∉ criticalStatuses ∧
    countCritical (batchStatuses codes cases) = 0 ∧
    batchPassed codes cases = cases.length := by
  have key : ∀ pc ∈ cases,
      runnerClassify (testUIFilterFunctionality codes pc.1 pc.2) = ("NO_FLIGHTS_FOUND", true) := by
    intro pc hpc
    obtain ⟨hst, hfl⟩ := h pc hpc
    rcases engineRun_cases codes pc.1 pc.2 with hc | ⟨e, hc⟩ | ⟨bc, ac, fs, hc⟩
    · rw [hc] at hst
      simp [failDict, rget, show ("FAIL" : String) ≠ "SUCCESS" from by decide] at hst
    · rw [hc] at hst
      simp [errorDict, rget, show ("ERROR" : String) ≠ "SUCCESS" from by decide] at hst
    · rw [hc] at hfl ⊢
      rw [flightsOf_successDict] at hfl
      subst hfl
      rw [runnerClassify_successDict]
      simp
  refine ⟨key, by decide, ?_, ?_⟩
  · unfold countCritical batchStatuses
    rw [List.filter_eq_nil_iff.mpr]
    · rfl
    · intro st hst
      obtain ⟨pc, hpc, hmap⟩ := List.mem_map.mp hst
      rw [key pc hpc] at hmap
      subst hmap
      decide
  · unfold batchPassed
    have hall : ∀ pc ∈ cases,
        (runnerClassify (testUIFilterFunctionality codes pc.1 pc.2)).2 = true := by
      intro pc hpc
      rw [key pc hpc]
    rw [List.filter_eq_self.mpr hall]

/-- Witness for C7: a single-case batch whose run succeeds with an empty
page yields one NO_FLIGHTS_FOUND outcome and no critical failures. -/
theorem no_flights_found_is_passing_witness :
    countCritical (batchStatuses emptyCodes [(pbEmpty, cfg1Stop)]) = 0 :=
  (no_flights_found_is_passing emptyCodes [(pbEmpty, cfg1Stop)]
    (by
      intro pc hpc
      rw [List.mem_singleton] at hpc
      subst hpc
      exact ⟨rfl, rfl⟩)).2.2.1

/-- Helper: inversion of a successful per-row extraction — the row was
visible, its effective price is the flight's price, both filter conditions
held, and the flight is the record built for that row. -/
theorem extractRow_eq_some {codes : AirportCodes} {pmin pmax : Nat}
    {targetStop : String} {ie : Nat × FlightElem} {f : ExtractedFlight}
    (h : extractRow codes pmin pmax targetStop ie = some f) :
    isVisible ie.2 = true ∧ effectivePrice ie.2 = some f.price ∧
    (pmin ≤ f.price ∧ f.price ≤ pmax) ∧ stopMatch targetStop (effectiveStop ie.2) ∧
    f = mkExtracted codes ie.1 ie.2 f.price := by
  unfold extractRow at h
  split at h
  case isTrue hv =>
    split at h
    next hp => exact absurd h (by simp)
    next price hp =>
      split at h
      next hcond =>
        injection h with h'
        subst h'
        exact ⟨hv, hp, hcond.1, hcond.2, rfl⟩
      next => exact absurd h (by simp)
  case isFalse => exact absurd h (by simp)

/-- Claim C2: for a canonical stop label, every flight returned by
`_extract_ui_filtered_flights_only` lies within the requested price bounds
and carries exactly the requested stop category, and each returned flight
comes from a row that was visible after filtering — rows failing either
condition or not visible are never included. -/
theorem extractor_canonical_stop_sound (codes : AirportCodes) (cfg : TestConfig)
    (page : List FlightElem)
    (h : cfg.stops_filter ∈ (["Non-stop", "1 Stop", "2+ Stop"] : List String)) :
    ∀ f ∈ extractUIFilteredFlightsOnly codes cfg page,
      (cfg.price_min ≤ f.price ∧ f.price ≤ cfg.price_max) ∧
      f.stops = cfg.stops_filter ∧
      ∃ ie ∈ page.enum, isVisible ie.2 = true ∧
        extractRow codes cfg.price_min cfg.price_max cfg.stops_filter ie = some f := by
  intro f hf
  obtain ⟨ie, hie, hrow⟩ := List.mem_filterMap.mp hf
  obtain ⟨hv, hp, hb, hs, hfe⟩ := extractRow_eq_some hrow
  refine ⟨hb, ?_, ie, hie, hv, hrow⟩
  have hstops : f.stops = stopTypeOf (effectiveStop ie.2) := by
    rw [hfe]
    rfl
  rw [hstops]
  rcases hs with ⟨ht, he⟩ | ⟨ht, he⟩ | ⟨ht, he⟩ | ⟨ht, he⟩ | ⟨ht, he⟩ <;> rw [he, ht]
  · decide
  · decide
  · decide
  · rw [ht] at h
    exact absurd h (by decide)
  · rw [ht] at h
    exact absurd h (by decide)

/-- Witness for C2: the sample one-stop request on a page with one visible
one-stop row priced 7000 returns that flight with stop category `1 Stop`. -/
theorem extractor_canonical_stop_sound_witness :
    (mkExtracted emptyCodes 0 sampleStop1Elem 7000).stops = cfg1Stop.stops_filter :=
  ((extractor_canonical_stop_sound emptyCodes cfg1Stop [sampleStop1Elem] (by decide))
    (mkExtracted emptyCodes 0 sampleStop1Elem 7000) (by decide)).2.1

/-- Helper: when the target label is none of the five strings the
extractor's stop-match recognises, extraction returns no flights at all. -/
theorem extractCore_eq_nil_of_unmatched (codes : AirportCodes) (pmin pmax : Nat)
    (targetStop : String) (page : List FlightElem)
    (h0 : targetStop ≠ "Non-stop") (h1 : targetStop ≠ "1 Stop")
    (h2 : targetStop ≠ "2+ Stop") (h3 : targetStop ≠ "2 Stop")
    (h4 : targetStop ≠ "2 Stops") :
    extractCore codes pmin pmax targetStop page = [] := by
  unfold extractCore
  rw [List.filterMap_eq_nil_iff]
  intro ie _
  unfold extractRow
  split
  · split
    · rfl
    · rw [if_neg]
      rintro ⟨-, hs⟩
      rcases hs with ⟨he, -⟩ | ⟨he, -⟩ | ⟨he, -⟩ | ⟨he, -⟩ | ⟨he, -⟩
      exacts [h0 he, h1 he, h2 he, h3 he, h4 he]
  · rfl

/-- Counterexample to claim C3: on a page with one visible non-stop row
priced 7000, the extractor returns that flight for `"Non-stop"` but returns
nothing for the synonym `"Nonstop"` — the two labels do not yield the same
extracted set. -/
theorem stop_synonym_counterexample :
    extractUIFilteredFlightsOnly codesAG cfgNonstopSyn [sampleNonstopElem] = [] ∧
    (extractUIFilteredFlightsOnly codesAG cfgNonstop [sampleNonstopElem]).length = 1 ∧
    extractUIFilteredFlightsOnly codesAG cfgNonstopSyn [sampleNonstopElem] ≠
      extractUIFilteredFlightsOnly codesAG cfgNonstop [sampleNonstopElem] := by
  decide

/-- Claim C3 (amended): stop-label synonyms are honoured only when toggling
the stop checkboxes — `_test_stops_ui_filter_corrected` maps `Nonstop`,
`One Stop` and `1-stop` to the same checkbox as their canonical labels and
behaves identically on them — but not during extraction: with a synonym
label, `_extract_ui_filtered_flights_only` recognises no stop category and
returns no flights. -/
theorem stop_synonyms_checkbox_only (st : CheckboxState) (codes : AirportCodes)
    (cfg : TestConfig) (page : List FlightElem)
    (h : cfg.stops_filter ∈ (["Nonstop", "One Stop", "1-stop"] : List String)) :
    testStopsUIFilterCorrected st "Nonstop" = testStopsUIFilterCorrected st "Non-stop" ∧
    testStopsUIFilterCorrected st "One Stop" = testStopsUIFilterCorrected st "1 Stop" ∧
    testStopsUIFilterCorrected st "1-stop" = testStopsUIFilterCorrected st "1 Stop" ∧
    extractUIFilteredFlightsOnly codes cfg page = [] := by
  refine ⟨rfl, rfl, rfl, ?_⟩
  simp only [List.mem_cons, List.not_mem_nil, or_false] at h
  unfold extractUIFilteredFlightsOnly
  rcases h with h | h | h <;> rw [h] <;>
    exact extractCore_eq_nil_of_unmatched _ _ _ _ _ (by decide) (by decide) (by decide)
      (by decide) (by decide)

/-- Witness for C3's amended claim at the synonym `Nonstop` on the sample
non-stop page. -/
theorem stop_synonyms_checkbox_only_witness :
    extractUIFilteredFlightsOnly codesAG cfgNonstopSyn [sampleNonstopElem] = [] :=
  (stop_synonyms_checkbox_only ⟨true, false, false⟩ codesAG cfgNonstopSyn
    [sampleNonstopElem] (by decide)).2.2.2

/-- Counterexample to claim C1: with a slider range of [6200, 19500] and a
request of [6000, 20000], a visible one-stop row whose price 6100 comes
from its text (it has no `price` attribute, so the price filter's
`.fltResult[price]` hide/show never touches it) is included by the code's
extraction — whose window is the requested bounds — but would be excluded
under the claim's contract that extraction uses the achieved bounds
[6200, 19500]. -/
theorem achieved_bounds_counterexample :
    priceFilterTargets 6000 20000 6200 19500 = (6200, 19500) ∧
    (extractUIFilteredFlightsOnly codesAG cfg1Stop
        (applyPriceFilterPage 6000 20000 6200 19500 [textPricedElem])).length = 1 ∧
    (extractWithAchievedBounds codesAG cfg1Stop 6200 19500
        (applyPriceFilterPage 6000 20000 6200 19500 [textPricedElem])).length = 0 ∧
    extractUIFilteredFlightsOnly codesAG cfg1Stop
        (applyPriceFilterPage 6000 20000 6200 19500 [textPricedElem]) ≠
      extractWithAchievedBounds codesAG cfg1Stop 6200 19500
        (applyPriceFilterPage 6000 20000 6200 19500 [textPricedElem]) := by
  decide

/-- Helper: hide/show leaves the `price` attribute unchanged. -/
theorem priceFilterHide_priceAttr (tmin tmax : Nat) (e : FlightElem) :
    (priceFilterHide tmin tmax e).priceAttr = e.priceAttr := by
  unfold priceFilterHide
  cases h : e.priceAttr with
  | none => exact h
  | some q =>
    split
    · rename_i heq
      exact absurd heq (by simp)
    · split <;> rfl

/-- Helper: a priced row outside the applied window is hidden. -/
theorem priceFilterHide_some_out {tmin tmax : Nat} {e : FlightElem} {p : Nat}
    (h : e.priceAttr = some p) (hout : p < tmin ∨ tmax < p) :
    (priceFilterHide tmin tmax e).styleDisplay = "none" := by
  unfold priceFilterHide
  rw [h]
  split
  · rename_i heq
    exact absurd heq (by simp)
  · rename_i p1 heq
    injection heq with hpp
    subst hpp
    rw [if_pos hout]

/-- Helper: a priced row inside the applied window is shown. -/
theorem priceFilterHide_some_in {tmin tmax : Nat} {e : FlightElem} {p : Nat}
    (h : e.priceAttr = some p) (hin : ¬(p < tmin ∨ tmax < p)) :
    (priceFilterHide tmin tmax e).styleDisplay = "" := by
  unfold priceFilterHide
  rw [h]
  split
  · rename_i heq
    exact absurd heq (by simp)
  · rename_i p1 heq
    injection heq with hpp
    subst hpp
    rw [if_neg hin]

/-- Claim C1 (amended): the bounds applied to the page are the requested
bounds clamped to the slider range — a priced row ends up hidden exactly
when its price lies outside [max(price_min, sliderMin),
min(price_max, sliderMax)] — but the achieved bounds are not propagated:
downstream extraction and validation keep using the originally requested
`price_min`/`price_max` of the configuration as the inclusion window. -/
theorem price_filter_clamps_but_extraction_uses_request
    (price_min price_max sliderMin sliderMax : Nat) (page : List FlightElem)
    (codes : AirportCodes) (cfg : TestConfig) :
    priceFilterTargets price_min price_max sliderMin sliderMax =
      (Nat.max price_min sliderMin, Nat.min price_max sliderMax) ∧
    (∀ e ∈ applyPriceFilterPage price_min price_max sliderMin sliderMax page, ∀ p,
      e.priceAttr = some p →
      (e.styleDisplay = "none" ↔
        (p < (priceFilterTargets price_min price_max sliderMin sliderMax).1 ∨
         (priceFilterTargets price_min price_max sliderMin sliderMax).2 < p))) ∧
    (∀ f ∈ extractUIFilteredFlightsOnly codes cfg page,
      cfg.price_min ≤ f.price ∧ f.price ≤ cfg.price_max) := by
  refine ⟨rfl, ?_, ?_⟩
  · intro e he p hp
    obtain ⟨e0, -, rfl⟩ := List.mem_map.mp he
    have hattr : e0.priceAttr = some p := by
      rw [← priceFilterHide_priceAttr
        (priceFilterTargets price_min price_max sliderMin sliderMax).1
        (priceFilterTargets price_min price_max sliderMin sliderMax).2 e0]
      exact hp
    by_cases hout : p < (priceFilterTargets price_min price_max sliderMin sliderMax).1 ∨
        (priceFilterTargets price_min price_max sliderMin sliderMax).2 < p
    · rw [priceFilterHide_some_out hattr hout]
      simp [hout]
    · rw [priceFilterHide_some_in hattr hout]
      simp [hout, show ("" : String) ≠ "none" from by decide]
  · intro f hf
    obtain ⟨ie, -, hrow⟩ := List.mem_filterMap.mp hf
    exact (extractRow_eq_some hrow).2.2.1

/-- Witness for C1's amended claim: a priced row at 6100 is hidden by the
clamped lower bound 6200 even though 6100 satisfies the requested lower
bound 6000. -/
theorem price_filter_clamps_witness :
    (priceFilterHide 6200 19500 pricedElem6100).styleDisplay = "none" :=
  ((price_filter_clamps_but_extraction_uses_request 6000 20000 6200 19500
      [pricedElem6100] codesAG cfg1Stop).2.1
    (priceFilterHide 6200 19500 pricedElem6100) (by decide) 6100 (by decide)).mpr
    (Or.inl (by decide))

/-- Helper: whatever `codeAt` returns is three uppercase letters. -/
theorem codeAt_shape (l : List Char) (cs : List Char) (h : codeAt l = some cs) :
    cs.length = 3 ∧ cs.all isUpperAZ = true := by
  unfold codeAt at h
  split at h
  · rename_i a b c rest
    split at h
    · rename_i hup
      injection h with h'
      subst h'
      refine ⟨rfl, ?_⟩
      simp only [Bool.and_eq_true] at hup
      simp only [List.all_cons, List.all_nil, Bool.and_true, Bool.and_eq_true]
      exact ⟨hup.1.1, hup.1.2, hup.2⟩
    · exact absurd h (by simp)
  · exact absurd h (by simp)

/-- Helper: whatever `findCode` returns is three uppercase letters. -/
theorem findCode_shape (l : List Char) :
    ∀ cs, findCode l = some cs → cs.length = 3 ∧ cs.all isUpperAZ = true := by
  induction l with
  | nil => intro cs h; exact absurd h (by simp [findCode])
  | cons x rest ih =>
    intro cs h
    unfold findCode at h
    split at h
    · rename_i cs' hat
      injection h with h'
      subst h'
      exact codeAt_shape _ _ hat
    · exact ih cs h

/-- Helper: `_extract_airport_code` returns the empty string or exactly
three uppercase letters. -/
theorem extractAirportCode_shape (t : String) :
    extractAirportCode t = "" ∨
    ((extractAirportCode t).length = 3 ∧
      (extractAirportCode t).data.all isUpperAZ = true) := by
  unfold extractAirportCode
  cases h : findCode t.data with
  | none => exact Or.inl rfl
  | some cs => exact Or.inr (findCode_shape t.data cs h)

/-- Helper: the `cached || 'N/A'` fallback applied to a value that is
either empty or an `_extract_airport_code` output yields `"N/A"` or three
uppercase letters. -/
theorem codeOr_shape (c : String)
    (h : c = "" ∨ ∃ t, c = extractAirportCode t) :
    codeOr c = "N/A" ∨ ((codeOr c).length = 3 ∧ (codeOr c).data.all isUpperAZ = true) := by
  rcases h with rfl | ⟨t, rfl⟩
  · left
    rfl
  · rcases extractAirportCode_shape t with hempty | ⟨hlen, hall⟩
    · rw [hempty]
      left
      rfl
    · right
      have hne : extractAirportCode t ≠ "" := by
        intro hcontra
        rw [hcontra] at hlen
        exact absurd hlen (by decide)
      unfold codeOr
      rw [if_neg hne]
      exact ⟨hlen, hall⟩

/-- Claim C10: within one call of `_extract_ui_filtered_flights_only`,
every returned flight carries the same `from_code` and `to_code` — the
codes cached during city selection — and each field is either exactly three
uppercase letters (an `_extract_airport_code` result) or `"N/A"` when
nothing was cached. -/
theorem extracted_codes_uniform_and_wellformed (codes : AirportCodes)
    (cfg : TestConfig) (page : List FlightElem)
    (hf : codes.from_airport_code = "" ∨
      ∃ t, codes.from_airport_code = extractAirportCode t)
    (ht : codes.to_airport_code = "" ∨
      ∃ t, codes.to_airport_code = extractAirportCode t) :
    ∀ f ∈ extractUIFilteredFlightsOnly codes cfg page,
      f.from_code = codeOr codes.from_airport_code ∧
      f.to_code = codeOr codes.to_airport_code ∧
      (∀ g ∈ extractUIFilteredFlightsOnly codes cfg page,
        f.from_code = g.from_code ∧ f.to_code = g.to_code) ∧
      (f.from_code = "N/A" ∨
        (f.from_code.length = 3 ∧ f.from_code.data.all isUpperAZ = true)) ∧
      (f.to_code = "N/A" ∨
        (f.to_code.length = 3 ∧ f.to_code.data.all isUpperAZ = true)) := by
  have key : ∀ f ∈ extractUIFilteredFlightsOnly codes cfg page,
      f.from_code = codeOr codes.from_airport_code ∧
      f.to_code = codeOr codes.to_airport_code := by
    intro f hf'
    obtain ⟨ie, -, hrow⟩ := List.mem_filterMap.mp hf'
    obtain ⟨-, -, -, -, hfe⟩ := extractRow_eq_some hrow
    constructor
    · rw [hfe]
      rfl
    · rw [hfe]
      rfl
  intro f hmem
  obtain ⟨h1, h2⟩ := key f hmem
  refine ⟨h1, h2, ?_, ?_, ?_⟩
  · intro g hg
    obtain ⟨g1, g2⟩ := key g hg
    rw [h1, h2, g1, g2]
    exact ⟨rfl, rfl⟩
  · rw [h1]
    exact codeOr_shape _ hf
  · rw [h2]
    exact codeOr_shape _ ht

/-- Witness for C10: with codes cached from the selection texts
`Ahmedabad(AMD)…` and `Goa(GOI)…`, the extracted sample flight carries the
cached `from` code. -/
theorem extracted_codes_uniform_and_wellformed_witness :
    (mkExtracted codesAG 0 sampleStop1Elem 7000).from_code =
      codeOr codesAG.from_airport_code :=
  ((extracted_codes_uniform_and_wellformed codesAG cfg1Stop [sampleStop1Elem]
      (Or.inr ⟨"Ahmedabad(AMD)Sardar Vallabhbhai Patel Airport", by decide⟩)
      (Or.inr ⟨"Goa(GOI)Dabolim Airport", by decide⟩))
    (mkExtracted codesAG 0 sampleStop1Elem 7000) (by decide)).1

/-- Helper: the inner (variation) fold never lowers the running best, ends
at least as high as every scanned pair, and either leaves the accumulator
unchanged or records this item together with a variation attaining the
final score. -/
theorem scanStep_foldl_spec (item : String) (vars : List String) (acc : BestMatch) :
    acc.score ≤ (vars.foldl (scanStep item) acc).score ∧
    (∀ v ∈ vars,
      matchScore (leadCityName item) v ≤ (vars.foldl (scanStep item) acc).score) ∧
    (vars.foldl (scanStep item) acc = acc ∨
      ((vars.foldl (scanStep item) acc).text = some item ∧
        ∃ v ∈ vars,
          matchScore (leadCityName item) v = (vars.foldl (scanStep item) acc).score)) := by
  induction vars generalizing acc with
  | nil => simp
  | cons v vs ih =>
    simp only [List.foldl_cons]
    obtain ⟨ih1, ih2, ih3⟩ := ih (scanStep item acc v)
    have hstep : acc.score ≤ (scanStep item acc v).score ∧
        matchScore (leadCityName item) v ≤ (scanStep item acc v).score := by
      unfold scanStep
      split
      · rename_i hlt
        exact ⟨Nat.le_of_lt hlt, Nat.le_refl _⟩
      · rename_i hge
        exact ⟨Nat.le_refl _, Nat.le_of_not_lt hge⟩
    refine ⟨Nat.le_trans hstep.1 ih1, ?_, ?_⟩
    · intro v' hv'
      rcases List.mem_cons.mp hv' with rfl | hmem
      · exact Nat.le_trans hstep.2 ih1
      · exact ih2 v' hmem
    · rcases ih3 with heq | ⟨htext, v', hv', hsc⟩
      · rw [heq]
        unfold scanStep
        split
        · rename_i hlt
          right
          refine ⟨rfl, v, List.mem_cons_self v vs, rfl⟩
        · left
          rfl
      · right
        exact ⟨htext, v', List.mem_cons_of_mem v hv', hsc⟩

/-- Helper: the full pair scan dominates every pair's score, and a non-trivial
result records some suggestion with a variation attaining the final
score. -/
theorem scanBest_foldl_spec (sug vars : List String) (acc : BestMatch) :
    acc.score ≤ (sug.foldl (fun a item => vars.foldl (scanStep item) a) acc).score ∧
    (∀ item ∈ sug, ∀ v ∈ vars,
      matchScore (leadCityName item) v ≤
        (sug.foldl (fun a item => vars.foldl (scanStep item) a) acc).score) ∧
    (sug.foldl (fun a item => vars.foldl (scanStep item) a) acc = acc ∨
      ∃ item ∈ sug,
        (sug.foldl (fun a item => vars.foldl (scanStep item) a) acc).text = some item ∧
        ∃ v ∈ vars,
          matchScore (leadCityName item) v =
            (sug.foldl (fun a item => vars.foldl (scanStep item) a) acc).score) := by
  induction sug generalizing acc with
  | nil => simp
  | cons it sug' ih =>
    simp only [List.foldl_cons]
    obtain ⟨inner1, inner2, inner3⟩ := scanStep_foldl_spec it vars acc
    obtain ⟨ih1, ih2, ih3⟩ := ih (vars.foldl (scanStep it) acc)
    refine ⟨Nat.le_trans inner1 ih1, ?_, ?_⟩
    · intro item hitem v hv
      rcases List.mem_cons.mp hitem with rfl | hmem
      · exact Nat.le_trans (inner2 v hv) ih1
      · exact ih2 item hmem v hv
    · rcases ih3 with heq | ⟨item, hitem, htext, v, hv, hsc⟩
      · rw [heq]
        rcases inner3 with heq' | ⟨htext, v, hv, hsc⟩
        · rw [heq']
          left
          rfl
        · right
          exact ⟨it, List.mem_cons_self it sug', htext, v, hv, hsc⟩
      · right
        exact ⟨item, List.mem_cons_of_mem it hitem, htext, v, hv, hsc⟩

/-- Claim C9: the suggestion scoring is tiered on the lower-cased leading
city name — an exact match scores 1000, a starts-with match 900, a substring
(contains) match 700, each tier strictly above the next — the scan's final
score dominates every suggestion/variation pair, the best suggestion is
clicked only when that score reaches the confidence threshold 300 (and the
clicked text attains the score), and below the threshold the selection
fails. -/
theorem city_scoring_tiers_and_threshold (s1 v1 s2 v2 s3 v3 : String)
    (suggestions variations : List String)
    (hx : listLower s1.data = listLower v1.data)
    (hp2 : listLower s2.data ≠ listLower v2.data)
    (hp2s : listStarts (listLower s2.data) (listLower v2.data) = true)
    (hp2l : 2 ≤ v2.length)
    (hc3 : listLower s3.data ≠ listLower v3.data)
    (hc3s : listStarts (listLower s3.data) (listLower v3.data) = false)
    (hc3r : listStarts (listLower v3.data) (listLower s3.data) = false)
    (hc3h : listHas (listLower s3.data) (listLower v3.data) = true)
    (hc3l : 2 ≤ v3.length) :
    matchScore s1 v1 = 1000 ∧ matchScore s2 v2 = 900 ∧ matchScore s3 v3 = 700 ∧
    matchScore s2 v2 < matchScore s1 v1 ∧ matchScore s3 v3 < matchScore s2 v2 ∧
    (∀ item ∈ suggestions, ∀ v ∈ variations,
      matchScore (leadCityName item) v ≤ (scanBest suggestions variations).score) ∧
    (∀ t, citySelectDecision suggestions variations = some t →
      300 ≤ (scanBest suggestions variations).score ∧ t ∈ suggestions ∧
      ∃ v ∈ variations,
        matchScore (leadCityName t) v = (scanBest suggestions variations).score) ∧
    ((scanBest suggestions variations).score < 300 →
      citySelectDecision suggestions variations = none) := by
  have hlen2 : 2 ≤ (listLower v2.data).length := by
    unfold listLower
    rw [List.length_map]
    exact hp2l
  have hlen3 : 2 ≤ (listLower v3.data).length := by
    unfold listLower
    rw [List.length_map]
    exact hc3l
  have h1000 : matchScore s1 v1 = 1000 := by
    unfold matchScore
    rw [if_pos hx]
  have h900 : matchScore s2 v2 = 900 := by
    unfold matchScore
    rw [if_neg hp2, if_pos (by simp [hp2s, hlen2])]
  have h700 : matchScore s3 v3 = 700 := by
    unfold matchScore
    rw [if_neg hc3, if_neg (by simp [hc3s]), if_neg (by simp [hc3r]),
      if_pos (by simp [hc3h, hlen3])]
  obtain ⟨-, hdom, hwit⟩ :=
    scanBest_foldl_spec suggestions variations { score := 0, text := none }
  refine ⟨h1000, h900, h700, by rw [h1000, h900]; decide, by rw [h900, h700]; decide,
    hdom, ?_, ?_⟩
  · intro t hdec
    unfold citySelectDecision at hdec
    split at hdec
    · rename_i hth
      rcases hwit with heq | ⟨item, hitem, htext, v, hv, hsc⟩
      · rw [show scanBest suggestions variations =
            suggestions.foldl (fun a item => variations.foldl (scanStep item) a)
              { score := 0, text := none } from rfl, heq] at hdec
        exact absurd hdec (by simp)
      · have ht' : item = t := by
          have := htext
          rw [show (suggestions.foldl (fun a item => variations.foldl (scanStep item) a)
              { score := 0, text := none }).text = (scanBest suggestions variations).text
            from rfl] at this
          rw [hdec] at this
          injection this with hh
          exact hh.symm
        subst ht'
        exact ⟨hth, hitem, v, hv, hsc⟩
    · exact absurd hdec (by simp)
  · intro hlt
    unfold citySelectDecision
    rw [if_neg (Nat.not_le_of_lt hlt)]

/-- Witness for C9: on the suggestion `Goa(GOI)Dabolim Airport` with target
variation `Goa`, the scan scores 1000 and the decision clicks it; the
concrete tier inputs are `goa`/`goa`, `goa city`/`goa` and `new goa`/`goa`. -/
theorem city_scoring_tiers_and_threshold_witness :
    300 ≤ (scanBest ["Goa(GOI)Dabolim Airport"] ["Goa"]).score :=
  (((city_scoring_tiers_and_threshold "Goa" "goa" "Goa City" "Goa" "New Goa" "Goa"
      ["Goa(GOI)Dabolim Airport"] ["Goa"] (by decide) (by decide) (by decide)
      (by decide) (by decide) (by decide) (by decide) (by decide)
      (by decide)).2.2.2.2.2.2.1) "Goa(GOI)Dabolim Airport" (by decide)).1

/-- Helper: the group keys are exactly the airline names occurring in the
input. -/
theorem mem_groupKeys {a : String} :
    ∀ {fs : List ConsolidatedRow}, a ∈ groupKeys fs ↔ ∃ f ∈ fs, f.airline_name = a := by
  intro fs
  induction fs with
  | nil => simp [groupKeys]
  | cons f fs ih =>
    simp only [groupKeys]
    constructor
    · intro h
      rcases List.mem_cons.mp h with heq | hmem
      · exact ⟨f, List.mem_cons_self f fs, heq.symm⟩
      · obtain ⟨g, hg, hga⟩ := ih.mp (List.mem_filter.mp hmem).1
        exact ⟨g, List.mem_cons_of_mem f hg, hga⟩
    · rintro ⟨g, hg, hga⟩
      rcases List.mem_cons.mp hg with heq | hmem
      · rw [← hga, heq]
        exact List.mem_cons_self _ _
      · by_cases hcase : a = f.airline_name
        · rw [hcase]
          exact List.mem_cons_self _ _
        · refine List.mem_cons_of_mem _ (List.mem_filter.mpr ⟨ih.mpr ⟨g, hmem, hga⟩, ?_⟩)
          simpa using hcase

/-- Helper: the group keys are distinct. -/
theorem groupKeys_nodup : ∀ fs : List ConsolidatedRow, (groupKeys fs).Nodup
  | [] => List.nodup_nil
  | f :: fs => by
    simp only [groupKeys]
    refine List.Nodup.cons ?_ ((groupKeys_nodup fs).filter _)
    intro hmem
    have h2 := (List.mem_filter.mp hmem).2
    simp at h2

/-- Helper: membership in an airline's group. -/
theorem mem_airlineGroup {fs : List ConsolidatedRow} {a : String} {f : ConsolidatedRow} :
    f ∈ airlineGroup fs a ↔ f ∈ fs ∧ f.airline_name = a := by
  unfold airlineGroup
  rw [List.mem_filter]
  simp

/-- Helper: every row of a sorted group carries the group's airline. -/
theorem sortGroup_airline (fs : List ConsolidatedRow) (a : String) :
    ∀ r ∈ sortGroup (airlineGroup fs a), r.airline_name = a := by
  intro r hr
  have hmem := (List.perm_insertionSort rowLe (airlineGroup fs a)).mem_iff.mp hr
  exact (mem_airlineGroup.mp hmem).2

/-- Helper: a key's sorted group is non-empty. -/
theorem sortGroup_ne_nil {fs : List ConsolidatedRow} {a : String}
    (h : a ∈ groupKeys fs) : sortGroup (airlineGroup fs a) ≠ [] := by
  obtain ⟨f, hf, hfa⟩ := mem_groupKeys.mp h
  have hmem : f ∈ airlineGroup fs a := mem_airlineGroup.mpr ⟨hf, hfa⟩
  have hmem' : f ∈ sortGroup (airlineGroup fs a) :=
    (List.perm_insertionSort rowLe (airlineGroup fs a)).mem_iff.mpr hmem
  exact List.ne_nil_of_mem hmem'

/-- Helper: the sorted airline list is a permutation of the keys, hence its
entries are distinct keys. -/
theorem sortedAirlines_nodup (fs : List ConsolidatedRow) : (sortedAirlines fs).Nodup :=
  (List.perm_insertionSort (airlineLe fs) (groupKeys fs)).symm.nodup (groupKeys_nodup fs)

/-- Helper: entries of the sorted airline list are keys. -/
theorem mem_sortedAirlines {fs : List ConsolidatedRow} {a : String}
    (h : a ∈ sortedAirlines fs) : a ∈ groupKeys fs :=
  (List.perm_insertionSort (airlineLe fs) (groupKeys fs)).mem_iff.mp h

/-- Helper: `gapJoin` on at least two blocks prepends the first block and a
single blank. -/
theorem gapJoin_cons_cons (b b' : List ConsolidatedRow)
    (bs : List (List ConsolidatedRow)) :
    gapJoin (b :: b' :: bs) = b.map some ++ none :: gapJoin (b' :: bs) := rfl

/-- Helper: the number of blank rows is one less than the number of
blocks. -/
theorem gapJoin_countP_isNone (bs : List (List ConsolidatedRow)) :
    (gapJoin bs).countP (fun r => r.isNone) = bs.length - 1 := by
  induction bs with
  | nil => rfl
  | cons b bs ih =>
    cases bs with
    | nil =>
      simp [gapJoin, List.countP_map, Function.comp_def]
    | cons b' bs' =>
      rw [gapJoin_cons_cons, List.countP_append, List.countP_cons]
      rw [ih]
      simp [List.countP_map, Function.comp_def]

/-- Helper: a block rendered as spreadsheet rows has no blank row and its
adjacent pairs trivially satisfy the no-two-blanks relation. -/
theorem chain'_map_some (b : List ConsolidatedRow) :
    List.Chain' (fun x y : Option ConsolidatedRow => x.isSome = true ∨ y.isSome = true)
      (b.map some) := by
  induction b with
  | nil => simp
  | cons r rs ih =>
    cases rs with
    | nil => simp
    | cons r' rs' => exact List.Chain'.cons (Or.inl rfl) ih

/-- Helper: with all blocks non-empty, the sheet starts with a data row. -/
theorem gapJoin_head_isSome (bs : List (List ConsolidatedRow))
    (hne : ∀ b ∈ bs, b ≠ []) :
    ∀ y ∈ (gapJoin bs).head?, y.isSome = true := by
  cases bs with
  | nil => simp [gapJoin]
  | cons b bs' =>
    have hb : b ≠ [] := hne b (List.mem_cons_self b bs')
    cases bs' with
    | nil =>
      cases b with
      | nil => exact absurd rfl hb
      | cons r rs =>
        intro y hy
        simp [gapJoin] at hy
        rw [← hy]
        rfl
    | cons b' bs'' =>
      cases b with
      | nil => exact absurd rfl hb
      | cons r rs =>
        intro y hy
        rw [gapJoin_cons_cons] at hy
        simp at hy
        rw [← hy]
        rfl

/-- Helper: with all blocks non-empty, no two blank rows are adjacent. -/
theorem gapJoin_chain' (bs : List (List ConsolidatedRow))
    (hne : ∀ b ∈ bs, b ≠ []) :
    List.Chain' (fun x y : Option ConsolidatedRow => x.isSome = true ∨ y.isSome = true)
      (gapJoin bs) := by
  induction bs with
  | nil => simp [gapJoin]
  | cons b bs ih =>
    cases bs with
    | nil => exact chain'_map_some b
    | cons b' bs' =>
      have hrest : ∀ c ∈ b' :: bs', c ≠ [] := fun c hc =>
        hne c (List.mem_cons_of_mem b hc)
      rw [gapJoin_cons_cons]
      rw [List.chain'_append]
      refine ⟨chain'_map_some b, ?_, ?_⟩
      · rw [List.chain'_cons']
        refine ⟨?_, ih hrest⟩
        intro y hy
        exact Or.inr (gapJoin_head_isSome (b' :: bs') hrest y hy)
      · intro x hx y hy
        left
        rw [List.getLast?_map] at hx
        simp at hx
        obtain ⟨r, -, rfl⟩ := hx
        rfl

/-- Claim C8: in the Airline Summary sheet produced by `_save_part1_excel`,
for every input list of flights, all rows of a given airline are contiguous
(each block carries one airline and the blocks' airlines are pairwise
distinct), each airline's rows are sorted by ascending numeric price,
airline groups appear in ascending order of each group's minimum price, and
exactly one blank row separates consecutive airline groups, with no gap
before the first group: the blank-row count is `blocks − 1`, no two blanks
are adjacent, and the sheet starts with a data row. -/
theorem summary_sheet_grouping (fs : List ConsolidatedRow) :
    (∀ b ∈ summaryBlocks fs, b ≠ []) ∧
    (∀ b ∈ summaryBlocks fs, ∀ r ∈ b, ∀ r' ∈ b, r.airline_name = r'.airline_name) ∧
    List.Pairwise (fun b b' => ∀ r ∈ b, ∀ r' ∈ b', r.airline_name ≠ r'.airline_name)
      (summaryBlocks fs) ∧
    (∀ b ∈ summaryBlocks fs, List.Pairwise rowLe b) ∧
    List.Pairwise (fun b b' => groupMin b ≤ groupMin b') (summaryBlocks fs) ∧
    (summarySheet fs).countP (fun r => r.isNone) = (summaryBlocks fs).length - 1 ∧
    List.Chain' (fun x y => x.isSome = true ∨ y.isSome = true) (summarySheet fs) ∧
    (∀ r, (summarySheet fs).head? = some r → r.isSome = true) := by
  have hne : ∀ b ∈ summaryBlocks fs, b ≠ [] := by
    intro b hb
    obtain ⟨a, ha, rfl⟩ := List.mem_map.mp hb
    exact sortGroup_ne_nil (mem_sortedAirlines ha)
  refine ⟨hne, ?_, ?_, ?_, ?_, ?_, ?_, ?_⟩
  · intro b hb r hr r' hr'
    obtain ⟨a, ha, rfl⟩ := List.mem_map.mp hb
    rw [sortGroup_airline fs a r hr, sortGroup_airline fs a r' hr']
  · unfold summaryBlocks
    rw [List.pairwise_map]
    refine List.Pairwise.imp ?_ (sortedAirlines_nodup fs)
    intro a a' hne' r hr r' hr'
    rw [sortGroup_airline fs a r hr, sortGroup_airline fs a' r' hr']
    exact hne'
  · intro b hb
    obtain ⟨a, ha, rfl⟩ := List.mem_map.mp hb
    exact List.sorted_insertionSort rowLe (airlineGroup fs a)
  · unfold summaryBlocks
    rw [List.pairwise_map]
    exact List.sorted_insertionSort (airlineLe fs) (groupKeys fs)
  · exact gapJoin_countP_isNone (summaryBlocks fs)
  · exact gapJoin_chain' (summaryBlocks fs) hne
  · intro r hr
    exact gapJoin_head_isSome (summaryBlocks fs) hne r hr

/-- Witness for C8 at the sample rows: two airline blocks separated by one
blank row. -/
theorem summary_sheet_grouping_witness :
    (summarySheet rows0).countP (fun r => r.isNone) = (summaryBlocks rows0).length - 1 :=
  (summary_sheet_grouping rows0).2.2.2.2.2.1

end EMT
